import Mathlib

set_option maxRecDepth 100000

/-!
Verification of the pure-Python EXIF GPS decoder in `open_in_gimp.py`
(`read_jpeg_exif_gps`, `get_gps_coordinates` and their nested helpers
`read_ifd_entries`, `get_value`, `read_rational`, `read_gps_coord`).

The byte source is modelled as a `List Nat` together with an explicit cursor
position, with CPython file semantics: `f.read(n)` returns the available bytes
(possibly fewer than `n`, never an error) and advances the cursor by the number
of bytes actually returned; `f.seek` to a negative position raises `OSError`.
`struct.unpack` raises `struct.error` when given the wrong number of bytes.
Raised exceptions are modelled as `Except.error`; the `try/except` wrapper of
`read_jpeg_exif_gps` maps them to `none`, exactly as the Python code prints the
exception and returns `None`.  Coordinate arithmetic is carried out in `ℚ`.
-/

namespace VseGps

/-- Exceptions that the decoder can raise internally: `struct.error` from
`struct.unpack` on a buffer of the wrong length, `OSError` from a relative
seek to a negative position, and a fuel guard for the marker-scan loop
(unreachable in practice: each iteration advances the cursor by at least
two bytes, so `length + 1` iterations always suffice). -/
inductive PErr where
  | structErr
  | osErr
  | loopFuel
deriving DecidableEq, Repr

/-- Equality of decoder results (needed to evaluate concrete runs). -/
instance {ε α : Type} [DecidableEq ε] [DecidableEq α] : DecidableEq (Except ε α) := fun a b =>
  match a, b with
  | .error e1, .error e2 =>
    if h : e1 = e2 then .isTrue (by rw [h]) else .isFalse (by simp [h])
  | .ok v1, .ok v2 =>
    if h : v1 = v2 then .isTrue (by rw [h]) else .isFalse (by simp [h])
  | .error _, .ok _ => .isFalse (by simp)
  | .ok _, .error _ => .isFalse (by simp)

/-- Byte order selected by the TIFF header: `II` (little) or `MM` (big). -/
inductive En where
  | little
  | big
deriving DecidableEq, Repr

/-- Model of `f.read(n)` on a file with contents `d` and cursor `pos`: returns the bytes
read (at most `n`, fewer at end of stream) and the new cursor position. -/
def fread (d : List Nat) (pos n : Nat) : List Nat × Nat :=
  let bs := (d.drop pos).take n
  (bs, pos + bs.length)

/-- Model of `f.seek(delta, 1)`: relative seek; raises `OSError` when the resulting
position is negative. -/
def fseekRel (pos : Nat) (delta : Int) : Except PErr Nat :=
  let t : Int := (pos : Int) + delta
  if t < 0 then .error .osErr else .ok t.toNat

/-- Model of `struct.unpack(endian + 'H', bs)`: a 16-bit unsigned integer; raises
`struct.error` unless `bs` has exactly two bytes. -/
def unpackU16 (en : En) (bs : List Nat) : Except PErr Nat :=
  match bs with
  | [a, b] =>
    .ok (match en with
      | .big => a * 256 + b
      | .little => b * 256 + a)
  | _ => .error .structErr

/-- Model of `struct.unpack(endian + 'I', bs)`: a 32-bit unsigned integer; raises
`struct.error` unless `bs` has exactly four bytes. -/
def unpackU32 (en : En) (bs : List Nat) : Except PErr Nat :=
  match bs with
  | [a, b, c, e] =>
    .ok (match en with
      | .big => ((a * 256 + b) * 256 + c) * 256 + e
      | .little => ((e * 256 + c) * 256 + b) * 256 + a)
  | _ => .error .structErr

/-- One IFD entry as stored by `read_ifd_entries`: the tuple
`(type_id, count, value_offset)` where `value_offset` is the raw 4-byte
value field (kept as bytes, not decoded). -/
structure Entry where
  typeId : Nat
  count : Nat
  raw : List Nat
deriving DecidableEq, Repr

/-- Lookup in the entry dictionary built by `read_ifd_entries`.  The Python
code stores entries into a `dict` in encounter order, so a duplicate tag
overwrites an earlier one: the lookup returns the last binding. -/
def dlookup (l : List (Nat × Entry)) (t : Nat) : Option Entry :=
  l.foldl (fun acc kv => if kv.1 = t then some kv.2 else acc) none

/-- The `while True` marker-scan loop of `read_jpeg_exif_gps`, searching for
the APP1 marker `0xFF 0xE1`.  A short marker read returns `None`; a marker not
starting with `0xFF` returns `None`; any other `0xFF`-marker is skipped by
reading its big-endian length and seeking `length - 2` forward.  The loop is
driven by explicit fuel; each iteration advances the cursor by at least two
bytes, so the caller's fuel of `d.length + 1` can never run out. -/
def findApp1Go (d : List Nat) : Nat → Nat → Except PErr (Option Nat)
  | 0, _ => .error .loopFuel
  | fuel + 1, pos =>
    let (marker, p1) := fread d pos 2
    if marker.length < 2 then .ok none
    else if marker = [0xFF, 0xE1] then .ok (some p1)
    else if marker.take 1 = [0xFF] then
      let (lb, p2) := fread d p1 2
      match unpackU16 .big lb with
      | .error e => .error e
      | .ok len =>
        match fseekRel p2 ((len : Int) - 2) with
        | .error e => .error e
        | .ok p3 => findApp1Go d fuel p3
    else .ok none

/-- Marker scan from position `pos`, with enough fuel for any input. -/
def findApp1 (d : List Nat) (pos : Nat) : Except PErr (Option Nat) :=
  findApp1Go d (d.length + 1) pos

/-- The entry-reading loop of `read_ifd_entries`: reads `n` twelve-byte
entries (tag, type_id, count per context endianness, then the raw 4-byte
value field) starting at `pos`, in encounter order. -/
def readEntriesN (en : En) (d : List Nat) : Nat → Nat → Except PErr (List (Nat × Entry) × Nat)
  | 0, pos => .ok ([], pos)
  | n + 1, pos =>
    let (tb, p1) := fread d pos 2
    match unpackU16 en tb with
    | .error e => .error e
    | .ok tag =>
      let (yb, p2) := fread d p1 2
      match unpackU16 en yb with
      | .error e => .error e
      | .ok tid =>
        let (cb, p3) := fread d p2 4
        match unpackU32 en cb with
        | .error e => .error e
        | .ok cnt =>
          let (vb, p4) := fread d p3 4
          match readEntriesN en d n p4 with
          | .error e => .error e
          | .ok (rest, p5) => .ok ((tag, ⟨tid, cnt, vb⟩) :: rest, p5)

/-- Model of `read_ifd_entries(offset)`: seek to `tiff_start + offset` (discarding the
incoming cursor), read a 16-bit entry count, then that many entries.  Returns
the entry list (looked up last-wins via `dlookup`) and the final cursor. -/
def read_ifd_entries (en : En) (d : List Nat) (tiffStart offset : Nat) :
    Except PErr (List (Nat × Entry) × Nat) :=
  let pos := tiffStart + offset
  let (nb, p1) := fread d pos 2
  match unpackU16 en nb with
  | .error e => .error e
  | .ok n => readEntriesN en d n p1

/-- The `type_sizes` table of `get_value`:
`{1: 1, 2: 1, 3: 2, 4: 4, 5: 8, 7: 1, 9: 4, 10: 8}` with `.get(type_id, 1)`
defaulting every unknown type id to width 1. -/
def type_sizes (tid : Nat) : Nat :=
  match tid with
  | 1 => 1
  | 2 => 1
  | 3 => 2
  | 4 => 4
  | 5 => 8
  | 7 => 1
  | 9 => 4
  | 10 => 8
  | _ => 1

/-- Model of `get_value(type_id, count, value_offset)`: when the computed size is at
most 4 the raw field is the value; otherwise the raw field is decoded as a
32-bit offset, the cursor is saved, the data is read at
`tiff_start + offset` (a plain `f.read(size)`, which returns the available
bytes and never fails), and the cursor is restored. -/
def get_value (en : En) (d : List Nat) (tiffStart pos tid cnt : Nat) (raw : List Nat) :
    Except PErr (List Nat × Nat) :=
  let size := type_sizes tid * cnt
  if size ≤ 4 then .ok (raw, pos)
  else
    match unpackU32 en raw with
    | .error e => .error e
    | .ok off =>
      let (data, _) := fread d (tiffStart + off) size
      .ok (data, pos)

/-- Model of `read_rational(data, offset)`: two consecutive 32-bit unsigned integers
per context endianness; `num / den` when the denominator is nonzero, `0`
otherwise.  Short slices raise `struct.error`. -/
def read_rational (en : En) (data : List Nat) (off : Nat) : Except PErr ℚ :=
  match unpackU32 en ((data.drop off).take 4) with
  | .error e => .error e
  | .ok num =>
    match unpackU32 en ((data.drop (off + 4)).take 4) with
    | .error e => .error e
    | .ok den => .ok (if den ≠ 0 then (num : ℚ) / (den : ℚ) else 0)

/-- Model of `read_gps_coord(data)`: three rationals at byte offsets 0, 8 and 16
(degrees, minutes, seconds), combined as `d + m/60 + s/3600`. -/
def read_gps_coord (en : En) (data : List Nat) : Except PErr ℚ :=
  match read_rational en data 0 with
  | .error e => .error e
  | .ok degrees =>
    match read_rational en data 8 with
    | .error e => .error e
    | .ok minutes =>
      match read_rational en data 16 with
      | .error e => .error e
      | .ok seconds => .ok (degrees + minutes / 60 + seconds / 3600)

/-- The latitude-reference block: when tag `0x0001` is present its value is
resolved and, if the first byte is `'S'` (0x53) or `'s'` (0x73), the latitude
is negated; otherwise (including absence of the tag) it is unchanged. -/
def applyLatRef (en : En) (d : List Nat) (tiffStart pos : Nat)
    (gpsIfd : List (Nat × Entry)) (latitude : ℚ) : Except PErr (ℚ × Nat) :=
  match dlookup gpsIfd 0x0001 with
  | none => .ok (latitude, pos)
  | some e =>
    match get_value en d tiffStart pos e.typeId e.count e.raw with
    | .error er => .error er
    | .ok (latRef, p1) =>
      if latRef.take 1 = [0x53] ∨ latRef.take 1 = [0x73] then .ok (-latitude, p1)
      else .ok (latitude, p1)

/-- The longitude-reference block: when tag `0x0003` is present its value is
resolved and, if the first byte is `'W'` (0x57) or `'w'` (0x77), the longitude
is negated; otherwise (including absence of the tag) it is unchanged. -/
def applyLonRef (en : En) (d : List Nat) (tiffStart pos : Nat)
    (gpsIfd : List (Nat × Entry)) (longitude : ℚ) : Except PErr (ℚ × Nat) :=
  match dlookup gpsIfd 0x0003 with
  | none => .ok (longitude, pos)
  | some e =>
    match get_value en d tiffStart pos e.typeId e.count e.raw with
    | .error er => .error er
    | .ok (lonRef, p1) =>
      if lonRef.take 1 = [0x57] ∨ lonRef.take 1 = [0x77] then .ok (-longitude, p1)
      else .ok (longitude, p1)

/-- The stage of `read_jpeg_exif_gps` after the GPS IFD has been parsed:
tags `0x0002` (latitude) and `0x0004` (longitude) must both be present, their
values are resolved and decoded, and the hemisphere reference tags are
applied in source order (latitude value, latitude ref, longitude value,
longitude ref). -/
def afterGpsIfd (en : En) (d : List Nat) (tiffStart pos : Nat)
    (gpsIfd : List (Nat × Entry)) : Except PErr (Option (ℚ × ℚ)) :=
  match dlookup gpsIfd 0x0002, dlookup gpsIfd 0x0004 with
  | some eLat, some eLon =>
    match get_value en d tiffStart pos eLat.typeId eLat.count eLat.raw with
    | .error e => .error e
    | .ok (latData, p1) =>
      match read_gps_coord en latData with
      | .error e => .error e
      | .ok lat0 =>
        match applyLatRef en d tiffStart p1 gpsIfd lat0 with
        | .error e => .error e
        | .ok (latitude, p2) =>
          match get_value en d tiffStart p2 eLon.typeId eLon.count eLon.raw with
          | .error e => .error e
          | .ok (lonData, p3) =>
            match read_gps_coord en lonData with
            | .error e => .error e
            | .ok lon0 =>
              match applyLonRef en d tiffStart p3 gpsIfd lon0 with
              | .error e => .error e
              | .ok (longitude, _) => .ok (some (latitude, longitude))
  | _, _ => .ok none

/-- The stage of `read_jpeg_exif_gps` after IFD0 has been parsed: tag
`0x8825` (GPS IFD pointer) must be present, its raw field is decoded as the
GPS IFD offset, the GPS IFD is parsed, and control passes to `afterGpsIfd`. -/
def afterIfd0 (en : En) (d : List Nat) (tiffStart : Nat)
    (ifd0 : List (Nat × Entry)) : Except PErr (Option (ℚ × ℚ)) :=
  match dlookup ifd0 0x8825 with
  | none => .ok none
  | some e8 =>
    match unpackU32 en e8.raw with
    | .error e => .error e
    | .ok gpsOff =>
      match read_ifd_entries en d tiffStart gpsOff with
      | .error e => .error e
      | .ok (gpsIfd, p1) => afterGpsIfd en d tiffStart p1 gpsIfd

/-- The stage of `read_jpeg_exif_gps` after the TIFF header: parse IFD0 at
the given offset and continue with `afterIfd0`. -/
def afterTiff (en : En) (d : List Nat) (tiffStart ifdOff : Nat) :
    Except PErr (Option (ℚ × ℚ)) :=
  match read_ifd_entries en d tiffStart ifdOff with
  | .error e => .error e
  | .ok (ifd0, _) => afterIfd0 en d tiffStart ifd0

/-- Which endianness the two TIFF byte-order bytes select: `II` is little
endian, `MM` is big endian, anything else makes the decoder return `None`. -/
def endianOf (bs : List Nat) : Option En :=
  if bs = [0x49, 0x49] then some .little
  else if bs = [0x4D, 0x4D] then some .big
  else none

/-- The body of `read_jpeg_exif_gps` before the `try/except` wrapper:
SOI magic, APP1 scan, APP1 length, `Exif\x00\x00` signature, TIFF header
(endianness and IFD0 offset), then the IFD stages.  `Except.error` models a
raised exception, `.ok none` an explicit `return None`. -/
def read_jpeg_exif_gps_core (d : List Nat) : Except PErr (Option (ℚ × ℚ)) :=
  let (magic, p0) := fread d 0 2
  if magic = [0xFF, 0xD8] then
    match findApp1 d p0 with
    | .error e => .error e
    | .ok none => .ok none
    | .ok (some p1) =>
      let (lb, p2) := fread d p1 2
      match unpackU16 .big lb with
      | .error e => .error e
      | .ok _length =>
        let (eh, p3) := fread d p2 6
        if eh = [0x45, 0x78, 0x69, 0x66, 0x00, 0x00] then
          let tiffStart := p3
          let (th, _) := fread d p3 8
          match endianOf (th.take 2) with
          | none => .ok none
          | some en =>
            match unpackU32 en ((th.drop 4).take 4) with
            | .error e => .error e
            | .ok ifdOff => afterTiff en d tiffStart ifdOff
        else .ok none
  else .ok none

/-- Model of `read_jpeg_exif_gps(filepath)` on a file with contents `d`: the
`try/except Exception` wrapper maps every raised exception to `None`. -/
def read_jpeg_exif_gps (d : List Nat) : Option (ℚ × ℚ) :=
  match read_jpeg_exif_gps_core d with
  | .error _ => none
  | .ok r => r

/-- Last index of `c` in `l`, or `-1` when absent: CPython `str.rfind`. -/
def rfindIdx (c : Char) (l : List Char) : Int :=
  match l.reverse.findIdx? (fun x => x = c) with
  | none => -1
  | some j => (l.length : Int) - 1 - (j : Int)

/-- The extension component of CPython `posixpath.splitext`: the suffix from
the last dot, provided that dot lies after the last `/` and the basename has
at least one non-dot character before it (leading dots never start an
extension); otherwise empty. -/
def splitext_ext (l : List Char) : List Char :=
  let sepIdx := rfindIdx '/' l
  let dotIdx := rfindIdx '.' l
  if sepIdx < dotIdx then
    if ((l.drop (sepIdx + 1).toNat).take (dotIdx - (sepIdx + 1)).toNat).any (fun x => x ≠ '.') then
      l.drop dotIdx.toNat
    else []
  else []

/-- Model of `os.path.splitext(filepath)[1].lower()`: the extension, ASCII-lowercased
(the extensions compared against are ASCII). -/
def ext_lower (path : String) : String :=
  ⟨(splitext_ext path.toList).map Char.toLower⟩

/-- Model of `get_gps_coordinates(filepath)` on a file with contents `d`: dispatch on
the lowercased extension; only `.jpg` / `.jpeg` run the JPEG decoder, every
other extension returns `None` without touching the contents. -/
def get_gps_coordinates (path : String) (d : List Nat) : Option (ℚ × ℚ) :=
  if ext_lower path = ".jpg" ∨ ext_lower path = ".jpeg" then
    read_jpeg_exif_gps d
  else none

/-- Tests whether a result is a raised exception. -/
def isErr {α : Type} : Except PErr α → Bool
  | .error _ => true
  | .ok _ => false

/-- GPS latitude value block of the synthetic example: rationals
`(40,1) (26,1) (46,1)`, little endian. -/
def gpsLatBytes : List Nat :=
  [0x28, 0, 0, 0, 1, 0, 0, 0,
   0x1A, 0, 0, 0, 1, 0, 0, 0,
   0x2E, 0, 0, 0, 1, 0, 0, 0]

/-- GPS longitude value block of the synthetic example: rationals
`(73,1) (59,1) (2,1)`, little endian. -/
def gpsLonBytes : List Nat :=
  [0x49, 0, 0, 0, 1, 0, 0, 0,
   0x3B, 0, 0, 0, 1, 0, 0, 0,
   0x02, 0, 0, 0, 1, 0, 0, 0]

/-- A minimal well-formed JPEG: SOI, APP1 with `Exif\x00\x00`, little-endian
TIFF header, IFD0 holding the GPS pointer tag `0x8825`, and a GPS IFD holding
latitude ref `'N'`, latitude `(40,1)(26,1)(46,1)`, longitude ref `'W'` and
longitude `(73,1)(59,1)(2,1)`. -/
def jpegExample : List Nat :=
  [0xFF, 0xD8, 0xFF, 0xE1, 0x00, 0x80,
   0x45, 0x78, 0x69, 0x66, 0x00, 0x00,
   0x49, 0x49, 0x2A, 0x00, 0x08, 0x00, 0x00, 0x00,
   0x01, 0x00,
   0x25, 0x88, 0x04, 0x00, 0x01, 0x00, 0x00, 0x00, 0x16, 0x00, 0x00, 0x00,
   0x04, 0x00,
   0x01, 0x00, 0x02, 0x00, 0x02, 0x00, 0x00, 0x00, 0x4E, 0x00, 0x00, 0x00,
   0x02, 0x00, 0x05, 0x00, 0x03, 0x00, 0x00, 0x00, 0x48, 0x00, 0x00, 0x00,
   0x03, 0x00, 0x02, 0x00, 0x02, 0x00, 0x00, 0x00, 0x57, 0x00, 0x00, 0x00,
   0x04, 0x00, 0x05, 0x00, 0x03, 0x00, 0x00, 0x00, 0x60, 0x00, 0x00, 0x00]
  ++ gpsLatBytes ++ gpsLonBytes

/-- Lemma: a successful 16-bit unpack consumed exactly two bytes. -/
lemma unpackU16_ok_length (en : En) (bs : List Nat) (v : Nat)
    (h : unpackU16 en bs = .ok v) : bs.length = 2 := by
  cases bs with
  | nil => simp [unpackU16] at h
  | cons a t =>
    cases t with
    | nil => simp [unpackU16] at h
    | cons b t2 =>
      cases t2 with
      | nil => rfl
      | cons c t3 => simp [unpackU16] at h

/-- Lemma: a failing 16-bit unpack raises exactly `struct.error`. -/
lemma unpackU16_error_eq (en : En) (bs : List Nat) (e : PErr)
    (h : unpackU16 en bs = .error e) : e = .structErr := by
  unfold unpackU16 at h
  split at h
  · simp at h
  · simp only [Except.error.injEq] at h
    exact h.symm

/-- Lemma: the marker-scan loop never exhausts its fuel while
`d.length + 4 ≤ 2 * fuel + pos` holds and a unit of fuel remains: every
iteration that recurses has consumed at least four stream bytes beyond `pos`
and advances the cursor by at least two. -/
lemma findApp1Go_ne_loopFuel (d : List Nat) :
    ∀ (fuel pos : Nat), 1 ≤ fuel → d.length + 4 ≤ 2 * fuel + pos →
      findApp1Go d fuel pos ≠ .error .loopFuel := by
  intro fuel
  induction fuel with
  | zero => intro pos h1 h2; omega
  | succ f ih =>
    intro pos h1 h2
    simp only [findApp1Go, fread]
    by_cases hshort : d.length - pos < 2
    · have hm : (List.take 2 (List.drop pos d)).length = d.length - pos := by
        simp only [List.length_take, List.length_drop]
        omega
      rw [hm, if_pos hshort]
      simp
    · have hm2 : (List.take 2 (List.drop pos d)).length = 2 := by
        simp only [List.length_take, List.length_drop]
        omega
      rw [hm2, if_neg (by omega : ¬(2 < 2))]
      by_cases happ : List.take 2 (List.drop pos d) = [0xFF, 0xE1]
      · rw [if_pos happ]
        simp
      · rw [if_neg happ]
        by_cases hff : List.take 1 (List.take 2 (List.drop pos d)) = [0xFF]
        · rw [if_pos hff]
          cases hu : unpackU16 En.big (List.take 2 (List.drop (pos + 2) d)) with
          | error e =>
            have he := unpackU16_error_eq _ _ _ hu
            subst he
            simp [hu]
          | ok len =>
            have hlb : (List.take 2 (List.drop (pos + 2) d)).length = 2 :=
              unpackU16_ok_length _ _ _ hu
            have hpos4 : pos + 4 ≤ d.length := by
              simp only [List.length_take, List.length_drop] at hlb
              omega
            simp only [hu, hlb, fseekRel]
            rw [if_neg (by omega)]
            have hp3 : (((pos + 2 + 2 : Nat) : Int) + ((len : Int) - 2)).toNat =
                pos + len + 2 := by omega
            rw [hp3]
            exact ih (pos + len + 2) (by omega) (by omega)
        · rw [if_neg hff]
          simp

/-- Lemma: `findApp1` is run with fuel `d.length + 1`, which never runs out
from the positions the decoder uses (at least 2, past the SOI magic). -/
lemma findApp1_ne_loopFuel (d : List Nat) (pos : Nat) (h : 2 ≤ pos) :
    findApp1 d pos ≠ .error .loopFuel := by
  apply findApp1Go_ne_loopFuel
  · omega
  · omega

/-- Lemma: `unpackU32` raises `struct.error` on every buffer that does not have
exactly four bytes. -/
lemma unpackU32_err_of_len (en : En) (bs : List Nat) (h : bs.length ≠ 4) :
    unpackU32 en bs = .error .structErr := by
  unfold unpackU32
  split
  · simp_all
  · rfl

/-- Lemma: `read_rational` raises when the buffer ends before the denominator:
fewer than `off + 8` bytes means some `struct.unpack` gets a short slice. -/
lemma read_rational_err_of_short (en : En) (bs : List Nat) (off : Nat)
    (h : bs.length < off + 8) : isErr (read_rational en bs off) = true := by
  unfold read_rational
  cases h1 : unpackU32 en ((bs.drop off).take 4) with
  | error e => simp [isErr]
  | ok num =>
    have hlen : ((bs.drop (off + 4)).take 4).length ≠ 4 := by
      simp only [List.length_take, List.length_drop]
      omega
    rw [unpackU32_err_of_len en _ hlen]
    simp [isErr]

/-- Lemma: `read_gps_coord` raises on every buffer shorter than the 24 bytes that
three rationals occupy. -/
lemma read_gps_coord_err_of_short (en : En) (bs : List Nat)
    (h : bs.length < 24) : isErr (read_gps_coord en bs) = true := by
  unfold read_gps_coord
  cases h0 : read_rational en bs 0 with
  | error e => simp [isErr]
  | ok q0 =>
    cases h8 : read_rational en bs 8 with
    | error e => simp [isErr]
    | ok q8 =>
      have h16 : isErr (read_rational en bs 16) = true :=
        read_rational_err_of_short en bs 16 (by omega)
      cases h16' : read_rational en bs 16 with
      | error e => simp [isErr]
      | ok q16 => rw [h16'] at h16; simp [isErr] at h16

/-- A failed SOI magic check makes the decoder return `None` without raising. -/
lemma core_of_bad_magic (d : List Nat) (h : d.take 2 ≠ [0xFF, 0xD8]) :
    read_jpeg_exif_gps_core d = .ok none := by
  unfold read_jpeg_exif_gps_core fread
  simp only [List.drop_zero]
  rw [if_neg h]

/-- Claim C1: `read_gps_coord` combines the three rationals found at byte
offsets 0, 8 and 16 as `degrees + minutes/60 + seconds/3600`; and the full
decode of a well-formed JPEG whose GPS IFD encodes latitude
`(40,1)(26,1)(46,1)` with ref `'N'` and longitude `(73,1)(59,1)(2,1)` with
ref `'W'` returns a latitude within `1e-6` of `40.446111` and a longitude
within `1e-6` of `-73.983889`. -/
theorem C1_dms_combination_and_synthetic_decode :
    (∀ (en : En) (data : List Nat) (q1 q2 q3 : ℚ),
        read_rational en data 0 = .ok q1 →
        read_rational en data 8 = .ok q2 →
        read_rational en data 16 = .ok q3 →
        read_gps_coord en data = .ok (q1 + q2 / 60 + q3 / 3600)) ∧
    (read_jpeg_exif_gps jpegExample = some (72803 / 1800, -(133171 / 1800)) ∧
      |(72803 / 1800 : ℚ) - 40446111 / 1000000| ≤ 1 / 1000000 ∧
      |(-(133171 / 1800) : ℚ) - -(73983889 / 1000000)| ≤ 1 / 1000000) := by
  constructor
  · intro en data q1 q2 q3 h1 h2 h3
    unfold read_gps_coord
    rw [h1, h2, h3]
  · refine ⟨?_, by rw [abs_le]; constructor <;> norm_num,
      by rw [abs_le]; constructor <;> norm_num⟩
    have h : read_jpeg_exif_gps jpegExample =
        some (((40 : ℕ) : ℚ) / ((1 : ℕ) : ℚ) + ((26 : ℕ) : ℚ) / ((1 : ℕ) : ℚ) / 60 +
            ((46 : ℕ) : ℚ) / ((1 : ℕ) : ℚ) / 3600,
          -(((73 : ℕ) : ℚ) / ((1 : ℕ) : ℚ) + ((59 : ℕ) : ℚ) / ((1 : ℕ) : ℚ) / 60 +
            ((2 : ℕ) : ℚ) / ((1 : ℕ) : ℚ) / 3600)) := rfl
    rw [h]
    simp only [Option.some.injEq, Prod.mk.injEq]
    constructor <;> norm_num

/-- Witness for C1 at the latitude bytes of the synthetic example. -/
theorem C1_witness :
    read_gps_coord En.little gpsLatBytes = .ok ((40 : ℚ) + 26 / 60 + 46 / 3600) :=
  C1_dms_combination_and_synthetic_decode.1 En.little gpsLatBytes 40 26 46
    (by
      have h : read_rational En.little gpsLatBytes 0 =
          .ok (((40 : ℕ) : ℚ) / ((1 : ℕ) : ℚ)) := rfl
      rw [h]; norm_num)
    (by
      have h : read_rational En.little gpsLatBytes 8 =
          .ok (((26 : ℕ) : ℚ) / ((1 : ℕ) : ℚ)) := rfl
      rw [h]; norm_num)
    (by
      have h : read_rational En.little gpsLatBytes 16 =
          .ok (((46 : ℕ) : ℚ) / ((1 : ℕ) : ℚ)) := rfl
      rw [h]; norm_num)

/-- Claim C4: `read_rational` decodes two consecutive 32-bit unsigned
integers per context endianness and returns `num / den`, except that a zero
denominator yields `0` instead of a division failure. -/
theorem C4_zero_denominator_yields_zero :
    ∀ (en : En) (data : List Nat) (off num den : Nat),
      unpackU32 en ((data.drop off).take 4) = .ok num →
      unpackU32 en ((data.drop (off + 4)).take 4) = .ok den →
      read_rational en data off = .ok (if den ≠ 0 then (num : ℚ) / den else 0) ∧
      (den = 0 → read_rational en data off = .ok 0) := by
  intro en data off num den h1 h2
  constructor
  · unfold read_rational
    rw [h1, h2]
  · intro h0
    unfold read_rational
    rw [h1, h2]
    simp [h0]

/-- Witness for C4 at a rational with numerator 1 and denominator 0. -/
theorem C4_witness :
    read_rational En.little [1, 0, 0, 0, 0, 0, 0, 0] 0 = .ok 0 :=
  (C4_zero_denominator_yields_zero En.little [1, 0, 0, 0, 0, 0, 0, 0] 0 1 0
    (by decide) (by decide)).2 rfl

/-- Claim C2: the hemisphere reference stage negates the latitude exactly
when the resolved value of tag `0x0001` starts with `'S'` or `'s'`, negates
the longitude exactly when the resolved value of tag `0x0003` starts with
`'W'` or `'w'`, and leaves the magnitude unchanged for any other first byte
(including `'N'` and `'E'`) or when the reference tag is absent. -/
theorem C2_hemisphere_sign_law :
    (∀ (en : En) (d : List Nat) (ts pos : Nat) (g : List (Nat × Entry)) (v : ℚ),
        dlookup g 0x0001 = none → applyLatRef en d ts pos g v = .ok (v, pos)) ∧
    (∀ (en : En) (d : List Nat) (ts pos : Nat) (g : List (Nat × Entry)) (v : ℚ)
        (e : Entry) (bs : List Nat) (p1 : Nat),
        dlookup g 0x0001 = some e →
        get_value en d ts pos e.typeId e.count e.raw = .ok (bs, p1) →
        (bs.take 1 = [0x53] ∨ bs.take 1 = [0x73]) →
        applyLatRef en d ts pos g v = .ok (-v, p1)) ∧
    (∀ (en : En) (d : List Nat) (ts pos : Nat) (g : List (Nat × Entry)) (v : ℚ)
        (e : Entry) (bs : List Nat) (p1 : Nat),
        dlookup g 0x0001 = some e →
        get_value en d ts pos e.typeId e.count e.raw = .ok (bs, p1) →
        ¬(bs.take 1 = [0x53] ∨ bs.take 1 = [0x73]) →
        applyLatRef en d ts pos g v = .ok (v, p1)) ∧
    (∀ (en : En) (d : List Nat) (ts pos : Nat) (g : List (Nat × Entry)) (v : ℚ),
        dlookup g 0x0003 = none → applyLonRef en d ts pos g v = .ok (v, pos)) ∧
    (∀ (en : En) (d : List Nat) (ts pos : Nat) (g : List (Nat × Entry)) (v : ℚ)
        (e : Entry) (bs : List Nat) (p1 : Nat),
        dlookup g 0x0003 = some e →
        get_value en d ts pos e.typeId e.count e.raw = .ok (bs, p1) →
        (bs.take 1 = [0x57] ∨ bs.take 1 = [0x77]) →
        applyLonRef en d ts pos g v = .ok (-v, p1)) ∧
    (∀ (en : En) (d : List Nat) (ts pos : Nat) (g : List (Nat × Entry)) (v : ℚ)
        (e : Entry) (bs : List Nat) (p1 : Nat),
        dlookup g 0x0003 = some e →
        get_value en d ts pos e.typeId e.count e.raw = .ok (bs, p1) →
        ¬(bs.take 1 = [0x57] ∨ bs.take 1 = [0x77]) →
        applyLonRef en d ts pos g v = .ok (v, p1)) := by
  refine ⟨?_, ?_, ?_, ?_, ?_, ?_⟩
  · intro en d ts pos g v h
    unfold applyLatRef
    rw [h]
  · intro en d ts pos g v e bs p1 h1 h2 h3
    unfold applyLatRef
    simp only [h1, h2]
    rw [if_pos h3]
  · intro en d ts pos g v e bs p1 h1 h2 h3
    unfold applyLatRef
    simp only [h1, h2]
    rw [if_neg h3]
  · intro en d ts pos g v h
    unfold applyLonRef
    rw [h]
  · intro en d ts pos g v e bs p1 h1 h2 h3
    unfold applyLonRef
    simp only [h1, h2]
    rw [if_pos h3]
  · intro en d ts pos g v e bs p1 h1 h2 h3
    unfold applyLonRef
    simp only [h1, h2]
    rw [if_neg h3]

/-- Witness for C2: a lowercase `'s'` reference negates a latitude of 5. -/
theorem C2_witness :
    applyLatRef En.little [] 0 0 [(1, ⟨2, 2, [0x73, 0, 0, 0]⟩)] (5 : ℚ) = .ok (-5, 0) :=
  C2_hemisphere_sign_law.2.1 En.little [] 0 0 [(1, ⟨2, 2, [0x73, 0, 0, 0]⟩)] 5
    ⟨2, 2, [0x73, 0, 0, 0]⟩ [0x73, 0, 0, 0] 0 (by decide) (by decide) (by decide)

/-- Claim C3: absence of the GPS IFD pointer tag `0x8825` from IFD0 makes the
decode return `None`, and absence of the latitude tag `0x0002` or the
longitude tag `0x0004` from the GPS IFD makes the decode return `None`;
an explicit `None` of the body is the final result. -/
theorem C3_missing_required_tag_gives_none :
    (∀ (en : En) (d : List Nat) (ts : Nat) (ifd0 : List (Nat × Entry)),
        dlookup ifd0 0x8825 = none → afterIfd0 en d ts ifd0 = .ok none) ∧
    (∀ (en : En) (d : List Nat) (ts pos : Nat) (g : List (Nat × Entry)),
        dlookup g 0x0002 = none ∨ dlookup g 0x0004 = none →
        afterGpsIfd en d ts pos g = .ok none) ∧
    (∀ d : List Nat, read_jpeg_exif_gps_core d = .ok none → read_jpeg_exif_gps d = none) := by
  refine ⟨?_, ?_, ?_⟩
  · intro en d ts ifd0 h
    unfold afterIfd0
    rw [h]
  · intro en d ts pos g h
    rcases hh : dlookup g 0x0002 with _ | e
    · unfold afterGpsIfd
      rw [hh]
    · rcases h with h | h
      · rw [hh] at h
        exact absurd h (by simp)
      · unfold afterGpsIfd
        rw [hh, h]
  · intro d h
    unfold read_jpeg_exif_gps
    rw [h]

/-- Witness for C3 at an empty IFD0. -/
theorem C3_witness :
    afterIfd0 En.little [] 0 [] = .ok none :=
  C3_missing_required_tag_gives_none.1 En.little [] 0 [] (by decide)

/-- Claim C5: `get_gps_coordinates` always produces an optional pair (its
result is `none` or `some (lat, lon)`); a raised exception anywhere in the
pipeline collapses to `none`, and an explicit failure (`return None`) of the
body is the final result — no partial coordinate escapes. -/
theorem C5_every_failure_collapses_to_none :
    ∀ (path : String) (d : List Nat),
      (get_gps_coordinates path d = none ∨
        ∃ lat lon : ℚ, get_gps_coordinates path d = some (lat, lon)) ∧
      (∀ e : PErr, read_jpeg_exif_gps_core d = .error e → read_jpeg_exif_gps d = none) ∧
      (read_jpeg_exif_gps_core d = .ok none → read_jpeg_exif_gps d = none) := by
  intro path d
  refine ⟨?_, ?_, ?_⟩
  · cases h : get_gps_coordinates path d with
    | none => exact Or.inl rfl
    | some p =>
      obtain ⟨a, b⟩ := p
      exact Or.inr ⟨a, b, rfl⟩
  · intro e h
    unfold read_jpeg_exif_gps
    rw [h]
  · intro h
    unfold read_jpeg_exif_gps
    rw [h]

/-- Witness for C5 on the empty byte source. -/
theorem C5_witness : read_jpeg_exif_gps [] = none :=
  (C5_every_failure_collapses_to_none ".jpg" []).2.2 (by decide)

/-- Claim C6 as stated is false: on a dereferenced region extending past
end-of-stream, `get_value` returns a short buffer via `f.read` instead of
failing.  Concretely, on a 10-byte stream an entry of type 5 (rational,
size 8) pointing at offset 8 resolves to the 2-byte buffer `[8, 9]`. -/
theorem C6_counterexample_short_buffer :
    get_value En.little [0, 1, 2, 3, 4, 5, 6, 7, 8, 9] 0 0 5 1 [8, 0, 0, 0] =
      .ok ([8, 9], 0) ∧
    4 < type_sizes 5 * 1 ∧
    ([8, 9] : List Nat).length < type_sizes 5 * 1 ∧
    ([0, 1, 2, 3, 4, 5, 6, 7, 8, 9] : List Nat).length < 0 + 8 + type_sizes 5 * 1 := by
  decide

/-- Claim C6, amended: when the computed size exceeds 4 bytes and the
dereferenced region extends past end-of-stream, `get_value` does not fail;
it returns the bytes available from `tiff_start + offset`, a buffer shorter
than the computed size (possibly empty).  The failure surfaces downstream:
decoding a GPS coordinate from any buffer shorter than the required 24 bytes
raises `struct.error`. -/
theorem C6_amended_short_read_propagates :
    ∀ (en : En) (d : List Nat) (ts pos tid cnt : Nat) (raw : List Nat)
      (off : Nat) (bs : List Nat),
      4 < type_sizes tid * cnt →
      unpackU32 en raw = .ok off →
      d.length < ts + off + type_sizes tid * cnt →
      bs.length < 24 →
      get_value en d ts pos tid cnt raw =
        .ok ((d.drop (ts + off)).take (type_sizes tid * cnt), pos) ∧
      ((d.drop (ts + off)).take (type_sizes tid * cnt)).length < type_sizes tid * cnt ∧
      isErr (read_gps_coord en bs) = true := by
  intro en d ts pos tid cnt raw off bs h4 hoff hpast hbs
  refine ⟨?_, ?_, read_gps_coord_err_of_short en bs hbs⟩
  · unfold get_value
    rw [if_neg (by omega), hoff]
    rfl
  · simp only [List.length_take, List.length_drop]
    omega

/-- Witness for the amended C6 at the counterexample stream. -/
theorem C6_amended_witness :
    get_value En.little [0, 1, 2, 3, 4, 5, 6, 7, 8, 9] 0 0 5 1 [8, 0, 0, 0] =
      .ok ((([0, 1, 2, 3, 4, 5, 6, 7, 8, 9] : List Nat).drop (0 + 8)).take
        (type_sizes 5 * 1), 0) ∧
    ((([0, 1, 2, 3, 4, 5, 6, 7, 8, 9] : List Nat).drop (0 + 8)).take
      (type_sizes 5 * 1)).length < type_sizes 5 * 1 ∧
    isErr (read_gps_coord En.little [8, 9]) = true :=
  C6_amended_short_read_propagates En.little [0, 1, 2, 3, 4, 5, 6, 7, 8, 9]
    0 0 5 1 [8, 0, 0, 0] 8 [8, 9] (by decide) (by decide) (by decide) (by decide)

/-- Claim C7: any path whose lowercased extension is neither `.jpg` nor
`.jpeg` makes `get_gps_coordinates` return `None` for every possible file
content, i.e. without the file being consulted at all. -/
theorem C7_extension_dispatch_none :
    ∀ (path : String) (d : List Nat),
      ext_lower path ≠ ".jpg" → ext_lower path ≠ ".jpeg" →
      get_gps_coordinates path d = none := by
  intro path d h1 h2
  unfold get_gps_coordinates
  rw [if_neg]
  rintro (h | h)
  · exact h1 h
  · exact h2 h

/-- Witness for C7 at a `.png` path with JPEG-looking contents. -/
theorem C7_witness : get_gps_coordinates "photo.png" [0xFF, 0xD8] = none :=
  C7_extension_dispatch_none "photo.png" [0xFF, 0xD8] (by decide) (by decide)

/-- Claim C8: when the first two bytes are not the SOI magic `0xFF 0xD8`
(including streams shorter than two bytes), the decoder returns `None` by an
explicit early return, and the result is the same for any two streams that
agree on their first two bytes — nothing past them is read. -/
theorem C8_bad_magic_stops_decoder :
    ∀ (d d2 : List Nat),
      d.take 2 ≠ [0xFF, 0xD8] →
      d2.take 2 = d.take 2 →
      read_jpeg_exif_gps_core d = .ok none ∧
      read_jpeg_exif_gps d = none ∧
      read_jpeg_exif_gps d2 = none := by
  intro d d2 h hd2
  have h2 : d2.take 2 ≠ [0xFF, 0xD8] := by rw [hd2]; exact h
  have c1 := core_of_bad_magic d h
  have c2 := core_of_bad_magic d2 h2
  refine ⟨c1, ?_, ?_⟩
  · unfold read_jpeg_exif_gps
    rw [c1]
  · unfold read_jpeg_exif_gps
    rw [c2]

/-- Witness for C8 at a two-byte non-JPEG stream and an extension of it. -/
theorem C8_witness :
    read_jpeg_exif_gps_core [0, 1] = .ok none ∧
    read_jpeg_exif_gps [0, 1] = none ∧
    read_jpeg_exif_gps [0, 1, 42] = none :=
  C8_bad_magic_stops_decoder [0, 1] [0, 1, 42] (by decide) (by decide)

/-- Claim C9: for an entry whose computed size exceeds 4 bytes, `get_value`
dereferences the raw field as a 32-bit offset relative to the TIFF base,
reads the value bytes there, and returns with the cursor equal to its
position before the call. -/
theorem C9_value_resolver_restores_cursor :
    ∀ (en : En) (d : List Nat) (ts pos tid cnt : Nat) (raw : List Nat) (off : Nat),
      4 < type_sizes tid * cnt →
      unpackU32 en raw = .ok off →
      get_value en d ts pos tid cnt raw =
        .ok ((d.drop (ts + off)).take (type_sizes tid * cnt), pos) := by
  intro en d ts pos tid cnt raw off h4 hoff
  unfold get_value
  rw [if_neg (by omega), hoff]
  rfl

/-- Witness for C9 at an in-bounds dereference with cursor 77. -/
theorem C9_witness :
    get_value En.little [10, 11, 12, 13, 14, 15, 16, 17, 18, 19, 20, 21, 22, 23, 24, 25]
      0 77 5 1 [4, 0, 0, 0] =
    .ok ((([10, 11, 12, 13, 14, 15, 16, 17, 18, 19, 20, 21, 22, 23, 24, 25] :
      List Nat).drop (0 + 4)).take (type_sizes 5 * 1), 77) :=
  C9_value_resolver_restores_cursor En.little
    [10, 11, 12, 13, 14, 15, 16, 17, 18, 19, 20, 21, 22, 23, 24, 25]
    0 77 5 1 [4, 0, 0, 0] 4 (by decide) (by decide)

/-- Claim C10: a type id outside the table `{1, 2, 3, 4, 5, 7, 9, 10}` gets
the default per-type width 1, so its size is `count`; with `count ≤ 4` the
entry resolves inline to its raw 4-byte field. -/
theorem C10_unknown_type_width_defaults_to_one :
    ∀ (tid : Nat) (en : En) (d : List Nat) (ts pos cnt : Nat) (raw : List Nat),
      tid ∉ ([1, 2, 3, 4, 5, 7, 9, 10] : List Nat) →
      cnt ≤ 4 →
      type_sizes tid = 1 ∧
      get_value en d ts pos tid cnt raw = .ok (raw, pos) := by
  intro tid en d ts pos cnt raw hmem hcnt
  simp only [List.mem_cons, List.not_mem_nil, or_false, not_or] at hmem
  have hts : type_sizes tid = 1 := by
    unfold type_sizes
    split <;> omega
  refine ⟨hts, ?_⟩
  unfold get_value
  rw [hts, if_pos (by omega)]

/-- Witness for C10 at the unknown type id 6 with count 4. -/
theorem C10_witness :
    type_sizes 6 = 1 ∧
    get_value En.big [] 0 3 6 4 [9, 9, 9, 9] = .ok ([9, 9, 9, 9], 3) :=
  C10_unknown_type_width_defaults_to_one 6 En.big [] 0 3 4 [9, 9, 9, 9]
    (by decide) (by decide)

end VseGps
